import Mathlib

/-!
Verification of the batch mask-compositing engine of the torque repository:
the C++ `RGBAProcessor` exposed through pybind11 as `torque_cpp`
(`batch_create_rgba_optimized` and `create_rgba_single`).

The engine is embedded shallowly: OpenCV images are flat byte lists, the
filesystem and the clock are explicit parameters, machine integers are `Nat`
(counts are bounded by the list lengths, so no overflow is reachable), and the
C++ `double` statistics are exact rationals.  The OpenMP loop writes one
result slot per task and bumps one of two atomic counters, so its final state
is the pure per-slot outcome function folded over any completion order; the
schedule-independence of that fold is proved below (`runSlotsInOrder_perm`).
-/

/-- A loaded OpenCV color image, as returned by `cv::imread(path, IMREAD_COLOR)`:
`rows x cols` pixels, three interleaved channels in BGR order, stored as a flat
row-major byte list, so `data.getD (3*p + c) 0` is channel `c` of pixel `p`. -/
structure Mat where
  rows : Nat
  cols : Nat
  data : List Nat
deriving DecidableEq

/-- A numpy byte array as seen through `py::array_t<uint8_t>::request()`: its
shape (`ndim = shape.length`) and its flat row-major data buffer. -/
structure NdArray where
  shape : List Nat
  data : List Nat
deriving DecidableEq

/-- The engine's external world.  `imread path` is the result of
`cv::imread(path, IMREAD_COLOR)` (`none` stands for the empty `cv::Mat` on a
load failure) and `imwriteOk path` tells whether `cv::imwrite(path, ...)`
succeeds.  OpenCV cannot write to the empty path (`imwrite` fails when no
extension is present), so worlds realized by the actual libraries satisfy
`imwriteOk "" = false`; theorems that depend on this state it as a hypothesis. -/
structure FileSystem where
  imread : String → Option Mat
  imwriteOk : String → Bool

/-- `cv::cvtColor(image, image_rgb, cv::COLOR_BGR2RGB)` on a 3-channel image:
every pixel's channel triple is reversed, B,G,R becoming R,G,B. -/
def cvtColor_BGR2RGB (m : Mat) : Mat :=
  { rows := m.rows, cols := m.cols,
    data := (List.range (m.rows * m.cols)).flatMap (fun p =>
      [m.data.getD (3 * p + 2) 0, m.data.getD (3 * p + 1) 0, m.data.getD (3 * p) 0]) }

/-- The per-pixel compositing loop shared by both entry points
(`for (int pixel = 0; pixel < total_pixels; ++pixel)`): for each pixel the
three bytes of `rgb_data` are copied and the alpha byte is 255 where the mask
byte is positive, else 0.  Returns the flat RGBA buffer, so
`getD (4*p + c) 0` is channel `c` of pixel `p`. -/
def compositeRGBA (rgb_data mask_data : List Nat) (total_pixels : Nat) : List Nat :=
  (List.range total_pixels).flatMap (fun pixel =>
    [rgb_data.getD (3 * pixel) 0,
     rgb_data.getD (3 * pixel + 1) 0,
     rgb_data.getD (3 * pixel + 2) 0,
     if mask_data.getD pixel 0 > 0 then 255 else 0])

/-- The RGBA buffer computed by one iteration of the batch worker body: load
the image, check its dimensions against the mask plane, convert BGR to RGB and
composite with plane `i` of the mask volume (the C++ reads the mask through
the pointer `masks_data + i*height*width`, modelled by `List.drop`).  `none`
when the load fails or the dimensions mismatch - the error-and-continue paths,
on which nothing is composited or written. -/
def taskRGBA (fs : FileSystem) (masks_data : List Nat) (height width : Nat)
    (image_path : String) (i : Nat) : Option (List Nat) :=
  match fs.imread image_path with
  | none => none
  | some image =>
    if image.rows = height ∧ image.cols = width then
      some (compositeRGBA (cvtColor_BGR2RGB image).data
        (masks_data.drop (i * height * width)) (height * width))
    else none

/-- Whether one iteration of the batch worker body succeeds, i.e. reaches
`cv::imwrite(output_paths[i], rgba_image, png_params)` and that write
succeeds; exactly then is `output_files[i]` set and `processed` incremented,
while every other path increments `errors` instead. -/
def taskSucceeds (fs : FileSystem) (masks_data : List Nat) (height width : Nat)
    (image_path output_path : String) (i : Nat) : Bool :=
  match taskRGBA fs masks_data height width image_path i with
  | none => false
  | some _ => fs.imwriteOk output_path

/-- Outcome of task `i` of a batch call, with `height`/`width` read off the
mask volume's shape exactly as `batch_create_rgba_optimized` does. -/
def taskOK (fs : FileSystem) (masks_array : NdArray)
    (image_paths output_paths : List String) (i : Nat) : Bool :=
  taskSucceeds fs masks_array.data
    (masks_array.shape.getD 1 0) (masks_array.shape.getD 2 0)
    (image_paths.getD i "") (output_paths.getD i "") i

/-- The pre-flight checks of `batch_create_rgba_optimized`: a nonempty input
list, output list of the same length, and a 3-D mask volume whose first
dimension is the number of images.  Any violation throws
`std::invalid_argument` before the parallel loop starts. -/
def preflightOk (image_paths : List String) (masks_array : NdArray)
    (output_paths : List String) : Bool :=
  image_paths.length != 0 &&
  image_paths.length == output_paths.length &&
  (masks_array.shape.length == 3 && masks_array.shape.getD 0 0 == image_paths.length)

/-- The statistics record assembled at the end of the batch call.  Field names
follow the keys of the returned `py::dict`; the C++ `double` values are exact
rationals, with the measured wall-clock duration in microseconds
(`duration.count()`) supplied as a parameter of the batch function. -/
structure BatchReport where
  processed : Nat
  errors : Nat
  output_files : List String
  uploaded : Nat
  processing_time_ms : ℚ
  avg_time_per_image_ms : ℚ
  throughput_mpix_per_sec : ℚ
  threads_used : Nat
deriving DecidableEq, Inhabited

/-- The result-slot array: `std::vector<std::string> output_files(num_images)`
starts as `num_images` empty strings, and slot `i` is set to
`output_paths[i]` exactly when task `i` succeeds. -/
def outcomeSlots (fs : FileSystem) (masks_array : NdArray)
    (image_paths output_paths : List String) : List String :=
  (List.range image_paths.length).map (fun i =>
    if taskOK fs masks_array image_paths output_paths i then output_paths.getD i "" else "")

/-- `RGBAProcessor::batch_create_rgba_optimized`.  Parameters beyond the C++
signature model the environment: `fs` the filesystem seen through OpenCV,
`hardware_concurrency` the value of `std::thread::hardware_concurrency()`, and
`duration_us` the measured duration in microseconds.  A thrown
`std::invalid_argument` is the `Except.error` case.  The OpenMP loop is
rendered by its per-slot outcomes: each task's entire effect (its own slot
plus one counter bump) is a function of that task's inputs alone. -/
def batch_create_rgba_optimized (fs : FileSystem) (hardware_concurrency : Nat)
    (duration_us : Nat) (image_paths : List String) (masks_array : NdArray)
    (output_paths : List String) : Except String BatchReport :=
  let num_images := image_paths.length
  if num_images = 0 then
    .error "No images provided"
  else if num_images ≠ output_paths.length then
    .error "Number of image paths must match output paths"
  else if masks_array.shape.length ≠ 3 ∨ masks_array.shape.getD 0 0 ≠ num_images then
    .error "Masks array must have shape (num_images, height, width)"
  else
    let height := masks_array.shape.getD 1 0
    let width := masks_array.shape.getD 2 0
    let max_threads := min 4 hardware_concurrency
    let processed := ((List.range num_images).filter
      (fun i => taskOK fs masks_array image_paths output_paths i)).length
    let errors := ((List.range num_images).filter
      (fun i => !taskOK fs masks_array image_paths output_paths i)).length
    let valid_output_files :=
      (outcomeSlots fs masks_array image_paths output_paths).filter (fun file => file != "")
    let processing_time_ms : ℚ := (duration_us : ℚ) / 1000
    .ok
      { processed := processed
        errors := errors
        output_files := valid_output_files
        uploaded := 0
        processing_time_ms := processing_time_ms
        avg_time_per_image_ms :=
          if processed > 0 then processing_time_ms / (processed : ℚ) else 0
        throughput_mpix_per_sec :=
          (((processed * height * width : Nat) : ℚ) / 1000000) / (processing_time_ms / 1000)
        threads_used := max_threads }

/-- A value stored in the returned `py::dict`. -/
inductive PyValue
  | int (n : Int)
  | float (q : ℚ)
  | strList (l : List String)
deriving DecidableEq

/-- The `py::dict results` returned by the batch entry point, as an ordered
association list with one entry per assignment, in source order. -/
def resultsDict (r : BatchReport) : List (String × PyValue) :=
  [("processed", .int r.processed),
   ("errors", .int r.errors),
   ("output_files", .strList r.output_files),
   ("uploaded", .int r.uploaded),
   ("processing_time_ms", .float r.processing_time_ms),
   ("avg_time_per_image_ms", .float r.avg_time_per_image_ms),
   ("throughput_mpix_per_sec", .float r.throughput_mpix_per_sec),
   ("threads_used", .int r.threads_used)]

/-- The seven BatchReport field names promised by the spec's interface
contract, written from the spec's words for the interface-refinement claim. -/
def specReportFields : List String :=
  ["processed", "errors", "output_files", "processing_time_ms",
   "avg_time_per_image_ms", "throughput_mpix_per_sec", "threads_used"]

/-- The image paths handed to `cv::imread` during a batch call: every loop
iteration loads its input path; when a pre-flight check throws, the loop never
runs and nothing is read. -/
def batch_reads (image_paths : List String) (masks_array : NdArray)
    (output_paths : List String) : List String :=
  if preflightOk image_paths masks_array output_paths then image_paths else []

/-- The output paths handed to `cv::imwrite` during a batch call: a task
attempts its write exactly when its image loaded with matching dimensions;
when a pre-flight check throws, nothing is written. -/
def batch_writes (fs : FileSystem) (image_paths : List String)
    (masks_array : NdArray) (output_paths : List String) : List String :=
  if preflightOk image_paths masks_array output_paths then
    ((List.range image_paths.length).filter (fun i =>
      (taskRGBA fs masks_array.data (masks_array.shape.getD 1 0)
        (masks_array.shape.getD 2 0) (image_paths.getD i "") i).isSome)).map
      (fun i => output_paths.getD i "")
  else []

/-- Control-flow outcome of one run of the `try` block of
`create_rgba_single`: `thrown` is an exception reaching the enclosing `catch`,
`failed` an early `return false`, and `wrote rgba ok` reaching the final
`cv::imwrite`, recording the buffer handed to it and the write's result. -/
inductive SingleOutcome
  | thrown (msg : String)
  | failed
  | wrote (rgba : List Nat) (ok : Bool)
deriving DecidableEq

/-- The `try` block of `RGBAProcessor::create_rgba_single`: load the image (an
empty load returns `false`), require a 2-D mask (else `std::invalid_argument`
is thrown), read `height`/`width` from the mask's shape, check the image's
dimensions (mismatch returns `false`), then composite and write. -/
def create_rgba_single_run (fs : FileSystem) (image_path : String) (mask : NdArray)
    (output_path : String) : SingleOutcome :=
  match fs.imread image_path with
  | none => .failed
  | some image =>
    if mask.shape.length ≠ 2 then .thrown "Mask must be 2D array"
    else
      let height := mask.shape.getD 0 0
      let width := mask.shape.getD 1 0
      if image.rows = height ∧ image.cols = width then
        .wrote (compositeRGBA (cvtColor_BGR2RGB image).data mask.data (height * width))
          (fs.imwriteOk output_path)
      else .failed

/-- `RGBAProcessor::create_rgba_single`: the boolean the caller sees, the
`catch (const std::exception&)` handler mapping any thrown exception to
`false`. -/
def create_rgba_single (fs : FileSystem) (image_path : String) (mask : NdArray)
    (output_path : String) : Bool :=
  match create_rgba_single_run fs image_path mask output_path with
  | .thrown _ => false
  | .failed => false
  | .wrote _ ok => ok

/-- The RGBA bytes the single-image path computes and hands to `cv::imwrite`;
`none` when it fails or throws before compositing. -/
def single_rgba_bytes (fs : FileSystem) (image_path : String) (mask : NdArray)
    (output_path : String) : Option (List Nat) :=
  match create_rgba_single_run fs image_path mask output_path with
  | .wrote rgba _ => some rgba
  | _ => none

/-- The result-slot array as produced by executing the completed loop
iterations in an arbitrary order `order`: starting from `num_images` empty
strings, each completed task writes only its own slot.  With
`schedule(dynamic)`, `order` can be any permutation of the task indices. -/
def runSlotsInOrder (ok : Nat → Bool) (output_paths : List String) (num_images : Nat)
    (order : List Nat) : List String :=
  order.foldl (fun slots i =>
    if ok i then slots.set i (output_paths.getD i "") else slots)
    (List.replicate num_images "")

/-- A concrete 1x1 BGR image used to instantiate the theorems. -/
def matW : Mat := { rows := 1, cols := 1, data := [10, 20, 30] }

/-- A concrete mask volume with one 1x1 plane. -/
def masksW : NdArray := { shape := [1, 1, 1], data := [7] }

/-- A concrete world: one loadable image, every named path writable. -/
def fsW : FileSystem :=
  { imread := fun path => if path = "img1.png" then some matW else none,
    imwriteOk := fun path => path != "" }

/-- The report of the one-image example batch call. -/
def rW : BatchReport :=
  match batch_create_rgba_optimized fsW 8 1000 ["img1.png"] masksW ["out1.png"] with
  | .ok r => r
  | .error _ => default

/-- A 2x2 image whose dimensions do not match a 1x1 mask plane. -/
def mat2x2 : Mat :=
  { rows := 2, cols := 2, data := [1, 1, 1, 2, 2, 2, 3, 3, 3, 4, 4, 4] }

/-- A world for the three-task scenario: tasks 1 and 3 load 1x1 images, task
2 loads a 2x2 image that mismatches the 1x1 mask planes. -/
def fs5 : FileSystem :=
  { imread := fun path =>
      if path = "i1.png" then some { rows := 1, cols := 1, data := [1, 2, 3] }
      else if path = "i2.png" then some mat2x2
      else if path = "i3.png" then some { rows := 1, cols := 1, data := [4, 5, 6] }
      else none,
    imwriteOk := fun path => path != "" }

/-- Input paths of the three-task scenario. -/
def ips5 : List String := ["i1.png", "i2.png", "i3.png"]

/-- Output paths of the three-task scenario. -/
def ops5 : List String := ["o1.png", "o2.png", "o3.png"]

/-- Mask volume of the three-task scenario: three 1x1 planes. -/
def masks5 : NdArray := { shape := [3, 1, 1], data := [255, 0, 9] }

/-- The report of the three-task scenario's batch call. -/
def r5 : BatchReport :=
  match batch_create_rgba_optimized fs5 8 2000 ips5 masks5 ops5 with
  | .ok r => r
  | .error _ => default

/-- A concrete 2-D mask matching `matW`, for the single-image path. -/
def mask7 : NdArray := { shape := [1, 1], data := [7] }

/-- Indexing into a concatenation of equal-length blocks: position
`k*p + j` falls in block `p` at offset `j`. -/
theorem getD_flatMap_range' (f : Nat → List Nat) (k : Nat) (hk : ∀ i, (f i).length = k)
    (d : Nat) : ∀ (n s p j : Nat), p < n → j < k →
    ((List.range' s n).flatMap f).getD (k * p + j) d = (f (s + p)).getD j d := by
  intro n
  induction n with
  | zero => intro s p j hp _; omega
  | succ n ih =>
    intro s p j hp hj
    rw [List.range'_succ, List.flatMap_cons]
    cases p with
    | zero =>
      rw [Nat.mul_zero, Nat.zero_add, Nat.add_zero]
      exact List.getD_append _ _ _ _ (by rw [hk]; exact hj)
    | succ p =>
      have hk' : k * (p + 1) + j = k * p + j + k := by ring
      rw [hk']
      rw [List.getD_append_right _ _ _ _ (by rw [hk]; omega)]
      rw [hk, Nat.add_sub_cancel]
      rw [ih (s + 1) p j (by omega) hj]
      have hs : s + 1 + p = s + (p + 1) := by omega
      rw [hs]

/-- Pixel `p`, channel `j` of the composited buffer. -/
theorem compositeRGBA_getD (rgb_data mask_data : List Nat) (n p j : Nat)
    (hp : p < n) (hj : j < 4) :
    (compositeRGBA rgb_data mask_data n).getD (4 * p + j) 0 =
      [rgb_data.getD (3 * p) 0,
       rgb_data.getD (3 * p + 1) 0,
       rgb_data.getD (3 * p + 2) 0,
       if mask_data.getD p 0 > 0 then 255 else 0].getD j 0 := by
  unfold compositeRGBA
  rw [List.range_eq_range']
  rw [getD_flatMap_range' (fun pixel =>
      [rgb_data.getD (3 * pixel) 0,
       rgb_data.getD (3 * pixel + 1) 0,
       rgb_data.getD (3 * pixel + 2) 0,
       if mask_data.getD pixel 0 > 0 then 255 else 0]) 4 (fun _ => rfl) 0 n 0 p j hp hj]
  rw [Nat.zero_add]

/-- Pixel `p`, channel `c` of the channel-swapped image. -/
theorem cvtColor_getD (m : Mat) (p c : Nat) (hp : p < m.rows * m.cols) (hc : c < 3) :
    (cvtColor_BGR2RGB m).data.getD (3 * p + c) 0 =
      [m.data.getD (3 * p + 2) 0,
       m.data.getD (3 * p + 1) 0,
       m.data.getD (3 * p) 0].getD c 0 := by
  unfold cvtColor_BGR2RGB
  simp only
  rw [List.range_eq_range']
  rw [getD_flatMap_range' (fun q =>
      [m.data.getD (3 * q + 2) 0, m.data.getD (3 * q + 1) 0, m.data.getD (3 * q) 0])
    3 (fun _ => rfl) 0 (m.rows * m.cols) 0 p c hp hc]
  rw [Nat.zero_add]

/-- Reading past a dropped prefix is reading at the offset index. -/
theorem getD_drop (l : List Nat) (n m : Nat) :
    (l.drop n).getD m 0 = l.getD (n + m) 0 := by
  simp [List.getD_eq_getElem?_getD, List.getElem?_drop]

/-- The composited buffer holds exactly four bytes per pixel. -/
theorem compositeRGBA_length (rgb_data mask_data : List Nat) (n : Nat) :
    (compositeRGBA rgb_data mask_data n).length = 4 * n := by
  unfold compositeRGBA
  rw [List.length_flatMap]
  have h : List.map (List.length ∘ fun pixel =>
      [rgb_data.getD (3 * pixel) 0,
       rgb_data.getD (3 * pixel + 1) 0,
       rgb_data.getD (3 * pixel + 2) 0,
       if mask_data.getD pixel 0 > 0 then 255 else 0]) (List.range n) =
      List.replicate n 4 := by
    rw [List.eq_replicate_iff]
    constructor
    · rw [List.length_map, List.length_range]
    · intro b hb
      rcases List.mem_map.mp hb with ⟨i, _, hi⟩
      simpa using hi.symm
  rw [h, List.sum_replicate, smul_eq_mul]
  omega

/-- The composited buffer depends on the mask only through the mask bytes of
the composited pixels. -/
theorem compositeRGBA_mask_congr (rgb_data a b : List Nat) (n : Nat)
    (h : ∀ p, p < n → a.getD p 0 = b.getD p 0) :
    compositeRGBA rgb_data a n = compositeRGBA rgb_data b n := by
  unfold compositeRGBA
  rw [List.flatMap_def, List.flatMap_def]
  congr 1
  apply List.map_congr_left
  intro p hp
  rw [h p (List.mem_range.mp hp)]

/-- A successful task's output write succeeded. -/
theorem taskOK_imwrite (fs : FileSystem) (masks_array : NdArray)
    (image_paths output_paths : List String) (i : Nat)
    (h : taskOK fs masks_array image_paths output_paths i = true) :
    fs.imwriteOk (output_paths.getD i "") = true := by
  unfold taskOK taskSucceeds at h
  rcases hm : taskRGBA fs masks_array.data (masks_array.shape.getD 1 0)
      (masks_array.shape.getD 2 0) (image_paths.getD i "") i with _ | rgba
  · rw [hm] at h; exact absurd h (by simp)
  · rw [hm] at h; exact h

/-- Elimination for a batch call that returned a report: the pre-flight checks
passed and every field of the report is pinned to its defining expression. -/
theorem batch_ok_fields (fs : FileSystem) (hw dur : Nat) (image_paths : List String)
    (masks_array : NdArray) (output_paths : List String) (r : BatchReport)
    (hok : batch_create_rgba_optimized fs hw dur image_paths masks_array output_paths = .ok r) :
    image_paths.length ≠ 0 ∧
    image_paths.length = output_paths.length ∧
    masks_array.shape.length = 3 ∧
    masks_array.shape.getD 0 0 = image_paths.length ∧
    r.processed = ((List.range image_paths.length).filter
      (fun i => taskOK fs masks_array image_paths output_paths i)).length ∧
    r.errors = ((List.range image_paths.length).filter
      (fun i => !taskOK fs masks_array image_paths output_paths i)).length ∧
    r.output_files =
      (outcomeSlots fs masks_array image_paths output_paths).filter (fun file => file != "") ∧
    r.uploaded = 0 ∧
    r.processing_time_ms = (dur : ℚ) / 1000 ∧
    r.avg_time_per_image_ms =
      (if r.processed > 0 then ((dur : ℚ) / 1000) / (r.processed : ℚ) else 0) ∧
    r.throughput_mpix_per_sec =
      (((r.processed * masks_array.shape.getD 1 0 * masks_array.shape.getD 2 0 : Nat) : ℚ)
        / 1000000) / (((dur : ℚ) / 1000) / 1000) ∧
    r.threads_used = min 4 hw := by
  simp only [batch_create_rgba_optimized] at hok
  split at hok
  · exact absurd hok (by simp)
  next h1 =>
  split at hok
  · exact absurd hok (by simp)
  next h2 =>
  split at hok
  · exact absurd hok (by simp)
  next h3 =>
  push_neg at h2 h3
  injection hok with hr
  subst hr
  refine ⟨h1, h2, h3.1, h3.2, rfl, rfl, rfl, rfl, rfl, rfl, rfl, rfl⟩

/-- A successful task's recorded output path is nonempty whenever the
filesystem cannot write to the empty path. -/
theorem taskOK_path_ne (fs : FileSystem) (masks_array : NdArray)
    (image_paths output_paths : List String) (i : Nat)
    (hw0 : fs.imwriteOk "" = false)
    (h : taskOK fs masks_array image_paths output_paths i = true) :
    output_paths.getD i "" ≠ "" := by
  intro hemp
  have := taskOK_imwrite fs masks_array image_paths output_paths i h
  rw [hemp, hw0] at this
  exact absurd this (by simp)

/-- Compacting the slot array keeps exactly the successful tasks' output
paths, in slot order. -/
theorem outcomeSlots_filter (fs : FileSystem) (masks_array : NdArray)
    (image_paths output_paths : List String)
    (hw0 : fs.imwriteOk "" = false) :
    (outcomeSlots fs masks_array image_paths output_paths).filter (fun file => file != "") =
      ((List.range image_paths.length).filter
        (fun i => taskOK fs masks_array image_paths output_paths i)).map
        (fun i => output_paths.getD i "") := by
  unfold outcomeSlots
  rw [List.filter_map]
  have hfil : List.filter ((fun file => file != "") ∘ fun i =>
      if taskOK fs masks_array image_paths output_paths i then output_paths.getD i "" else "")
      (List.range image_paths.length) =
      List.filter (fun i => taskOK fs masks_array image_paths output_paths i)
        (List.range image_paths.length) := by
    apply List.filter_congr
    intro i _
    by_cases h : taskOK fs masks_array image_paths output_paths i
    · have hne := taskOK_path_ne fs masks_array image_paths output_paths i hw0 h
      rw [List.getD_eq_getElem?_getD] at hne
      simp [Function.comp, h, hne]
    · simp [h]
  rw [hfil]
  apply List.map_congr_left
  intro i hi
  have h := (List.mem_filter.mp hi).2
  simp [h]

/-- The two counters absorb every task: the success count and the failure
count sum to the task count. -/
theorem filter_not_filter_length (p : Nat → Bool) (l : List Nat) :
    (l.filter p).length + (l.filter (fun i => !p i)).length = l.length := by
  have h := (List.filter_append_perm p l).length_eq
  rw [List.length_append] at h
  exact h

/-- Running the completed iterations in any order, the final slot `j` holds
`output_paths[j]` if task `j` ran and succeeded, else whatever it held
initially. -/
theorem foldl_slots_getD (ok : Nat → Bool) (output_paths : List String) :
    ∀ (order : List Nat) (init : List String) (j : Nat), j < init.length →
      (order.foldl (fun slots i =>
        if ok i then slots.set i (output_paths.getD i "") else slots) init).getD j "" =
      if j ∈ order ∧ ok j then output_paths.getD j "" else init.getD j "" := by
  intro order
  induction order with
  | nil =>
    intro init j hj
    simp
  | cons i rest ih =>
    intro init j hj
    rw [List.foldl_cons]
    have hlen : (if ok i then init.set i (output_paths.getD i "") else init).length =
        init.length := by
      split <;> simp
    rw [ih _ j (by rw [hlen]; exact hj)]
    have hstep : (if ok i then init.set i (output_paths.getD i "") else init).getD j "" =
        if i = j ∧ ok i then output_paths.getD i "" else init.getD j "" := by
      by_cases hoki : ok i
      · simp only [hoki, if_pos, and_true]
        rw [List.getD_eq_getElem?_getD, List.getElem?_set]
        by_cases hij : i = j
        · simp [hij, hj]
        · simp only [hij, if_neg, if_false]
          rw [← List.getD_eq_getElem?_getD]
      · simp [hoki]
    rw [hstep]
    by_cases hjr : j ∈ rest ∧ ok j
    · simp [hjr, List.mem_cons, hjr.1, hjr.2]
    · simp only [hjr, if_neg, if_false]
      by_cases hij : i = j
      · subst hij
        by_cases hoki : ok i
        · simp [hoki, List.mem_cons]
        · simp [hoki, List.mem_cons]
      · have hmem : (j ∈ i :: rest ∧ ok j) ↔ (j ∈ rest ∧ ok j) := by
          rw [List.mem_cons]
          constructor
          · rintro ⟨hj1 | hj2, hj3⟩
            · exact absurd hj1.symm hij
            · exact ⟨hj2, hj3⟩
          · rintro ⟨hj2, hj3⟩
            exact ⟨Or.inr hj2, hj3⟩
        rw [if_congr hmem rfl rfl, if_neg hjr]
        by_cases hoki : ok i
        · simp [hij, hoki]
        · simp [hoki]

/-- The slot-writing fold preserves the slot count. -/
theorem runSlotsInOrder_length (ok : Nat → Bool) (output_paths : List String)
    (num_images : Nat) (order : List Nat) :
    (runSlotsInOrder ok output_paths num_images order).length = num_images := by
  unfold runSlotsInOrder
  have h : ∀ (o : List Nat) (init : List String),
      (o.foldl (fun slots i =>
        if ok i then slots.set i (output_paths.getD i "") else slots) init).length =
      init.length := by
    intro o
    induction o with
    | nil => intro init; rfl
    | cons i rest ih =>
      intro init
      rw [List.foldl_cons, ih]
      split <;> simp
  rw [h, List.length_replicate]

/-- Schedule independence: completing the tasks in any permutation of the
index order produces the same slot array as the canonical per-index map. -/
theorem runSlotsInOrder_perm (ok : Nat → Bool) (output_paths : List String)
    (num_images : Nat) (order : List Nat)
    (hperm : order.Perm (List.range num_images)) :
    runSlotsInOrder ok output_paths num_images order =
      (List.range num_images).map (fun i => if ok i then output_paths.getD i "" else "") := by
  apply List.ext_getElem
  · rw [runSlotsInOrder_length, List.length_map, List.length_range]
  · intro j h1 h2
    have hjn : j < num_images := by
      rw [runSlotsInOrder_length] at h1
      exact h1
    have hmem : j ∈ order ↔ j < num_images := by
      rw [hperm.mem_iff, List.mem_range]
    rw [← List.getD_eq_getElem _ "" h1, ← List.getD_eq_getElem _ "" h2]
    unfold runSlotsInOrder
    rw [foldl_slots_getD ok output_paths order _ j (by simp [hjn])]
    have hrhs : ((List.range num_images).map
        (fun i => if ok i then output_paths.getD i "" else "")).getD j "" =
        if ok j then output_paths.getD j "" else "" := by
      rw [List.getD_eq_getElem _ "" h2, List.getElem_map]
      rw [List.getElem_range]
    rw [hrhs]
    by_cases hok : ok j
    · simp [hok, hmem.mpr hjn]
    · simp [hok]

/-- C1: for every task whose image loads with dimensions equal to the mask
plane's, the produced RGBA buffer has exactly `4*height*width` bytes and, at
every pixel `p`, its R, G and B bytes equal the BGR-to-RGB normalized source
bytes of pixel `p`, and its alpha byte is 255 exactly when the byte of mask
plane `i` at `p` is positive, else 0 - plain channel copies, with no
blending, scaling or color-space change. -/
theorem pixel_composition_exact (fs : FileSystem) (masks_data : List Nat)
    (height width : Nat) (image_path : String) (i p : Nat) (image : Mat)
    (hread : fs.imread image_path = some image)
    (hrows : image.rows = height) (hcols : image.cols = width)
    (hp : p < height * width) :
    ∃ rgba, taskRGBA fs masks_data height width image_path i = some rgba ∧
      rgba.length = 4 * (height * width) ∧
      rgba.getD (4 * p) 0 = image.data.getD (3 * p + 2) 0 ∧
      rgba.getD (4 * p + 1) 0 = image.data.getD (3 * p + 1) 0 ∧
      rgba.getD (4 * p + 2) 0 = image.data.getD (3 * p) 0 ∧
      rgba.getD (4 * p + 3) 0 =
        (if masks_data.getD (i * height * width + p) 0 > 0 then 255 else 0) := by
  subst hrows
  subst hcols
  have hp' : p < image.rows * image.cols := hp
  have htask : taskRGBA fs masks_data image.rows image.cols image_path i =
      some (compositeRGBA (cvtColor_BGR2RGB image).data
        (masks_data.drop (i * image.rows * image.cols)) (image.rows * image.cols)) := by
    unfold taskRGBA
    rw [hread]
    simp
  refine ⟨_, htask, compositeRGBA_length _ _ _, ?_, ?_, ?_, ?_⟩
  · calc (compositeRGBA (cvtColor_BGR2RGB image).data
        (masks_data.drop (i * image.rows * image.cols))
        (image.rows * image.cols)).getD (4 * p) 0
        = (cvtColor_BGR2RGB image).data.getD (3 * p) 0 :=
          compositeRGBA_getD _ _ _ p 0 hp' (by omega)
      _ = image.data.getD (3 * p + 2) 0 := cvtColor_getD image p 0 hp' (by omega)
  · calc (compositeRGBA (cvtColor_BGR2RGB image).data
        (masks_data.drop (i * image.rows * image.cols))
        (image.rows * image.cols)).getD (4 * p + 1) 0
        = (cvtColor_BGR2RGB image).data.getD (3 * p + 1) 0 :=
          compositeRGBA_getD _ _ _ p 1 hp' (by omega)
      _ = image.data.getD (3 * p + 1) 0 := cvtColor_getD image p 1 hp' (by omega)
  · calc (compositeRGBA (cvtColor_BGR2RGB image).data
        (masks_data.drop (i * image.rows * image.cols))
        (image.rows * image.cols)).getD (4 * p + 2) 0
        = (cvtColor_BGR2RGB image).data.getD (3 * p + 2) 0 :=
          compositeRGBA_getD _ _ _ p 2 hp' (by omega)
      _ = image.data.getD (3 * p) 0 := cvtColor_getD image p 2 hp' (by omega)
  · calc (compositeRGBA (cvtColor_BGR2RGB image).data
        (masks_data.drop (i * image.rows * image.cols))
        (image.rows * image.cols)).getD (4 * p + 3) 0
        = (if (masks_data.drop (i * image.rows * image.cols)).getD p 0 > 0
            then 255 else 0) :=
          compositeRGBA_getD _ _ _ p 3 hp' (by omega)
      _ = (if masks_data.getD (i * image.rows * image.cols + p) 0 > 0
            then 255 else 0) := by rw [getD_drop]

/-- Witness: the pixel contract at a concrete one-pixel task. -/
theorem pixel_composition_exact_witness :
    fsW.imread "img1.png" = some matW ∧ matW.rows = 1 ∧ matW.cols = 1 ∧ 0 < 1 * 1 ∧
    (∃ rgba, taskRGBA fsW [7] 1 1 "img1.png" 0 = some rgba ∧
      rgba.length = 4 * (1 * 1) ∧
      rgba.getD (4 * 0) 0 = matW.data.getD (3 * 0 + 2) 0 ∧
      rgba.getD (4 * 0 + 1) 0 = matW.data.getD (3 * 0 + 1) 0 ∧
      rgba.getD (4 * 0 + 2) 0 = matW.data.getD (3 * 0) 0 ∧
      rgba.getD (4 * 0 + 3) 0 =
        (if ([7] : List Nat).getD (0 * 1 * 1 + 0) 0 > 0 then 255 else 0)) :=
  ⟨by decide, rfl, rfl, by decide,
    pixel_composition_exact fsW [7] 1 1 "img1.png" 0 0 matW (by decide) rfl rfl (by decide)⟩

/-- C2: every batch call that passes the pre-flight checks returns a report in
which each of the N tasks lands in exactly one of the two counters - processed
counts the succeeding slots, errors counts the failing slots - so
processed + errors = N, and output_files has exactly processed entries.
`hw0` records that OpenCV cannot write a file with an empty name, which is
what keeps every successful slot non-empty before compaction. -/
theorem batch_counters_invariant (fs : FileSystem) (hw dur : Nat)
    (image_paths : List String) (masks_array : NdArray) (output_paths : List String)
    (r : BatchReport) (hw0 : fs.imwriteOk "" = false)
    (hok : batch_create_rgba_optimized fs hw dur image_paths masks_array output_paths = .ok r) :
    r.processed = ((List.range image_paths.length).filter
      (fun i => taskOK fs masks_array image_paths output_paths i)).length ∧
    r.errors = ((List.range image_paths.length).filter
      (fun i => !taskOK fs masks_array image_paths output_paths i)).length ∧
    r.processed + r.errors = image_paths.length ∧
    r.output_files.length = r.processed := by
  obtain ⟨h1, h2, h3, h4, hp, he, hof, hu, hpt, havg, hthr, hth⟩ :=
    batch_ok_fields fs hw dur image_paths masks_array output_paths r hok
  refine ⟨hp, he, ?_, ?_⟩
  · rw [hp, he]
    have hsum := filter_not_filter_length
      (fun i => taskOK fs masks_array image_paths output_paths i)
      (List.range image_paths.length)
    rw [List.length_range] at hsum
    exact hsum
  · rw [hof, outcomeSlots_filter fs masks_array image_paths output_paths hw0,
      List.length_map, hp]

/-- Witness: the counter invariant on the concrete one-image batch. -/
theorem batch_counters_invariant_witness :
    fsW.imwriteOk "" = false ∧
    batch_create_rgba_optimized fsW 8 1000 ["img1.png"] masksW ["out1.png"] = .ok rW ∧
    (rW.processed = ((List.range (["img1.png"] : List String).length).filter
      (fun i => taskOK fsW masksW ["img1.png"] ["out1.png"] i)).length ∧
    rW.errors = ((List.range (["img1.png"] : List String).length).filter
      (fun i => !taskOK fsW masksW ["img1.png"] ["out1.png"] i)).length ∧
    rW.processed + rW.errors = (["img1.png"] : List String).length ∧
    rW.output_files.length = rW.processed) :=
  ⟨by decide, rfl,
    batch_counters_invariant fsW 8 1000 ["img1.png"] masksW ["out1.png"] rW (by decide) rfl⟩

/-- C3 as stated is false: at a concrete successful batch call, the returned
dict carries the key "uploaded", which is not among the seven field names the
spec declares to be the exact field set. -/
theorem report_fields_counterexample :
    batch_create_rgba_optimized fsW 8 1000 ["img1.png"] masksW ["out1.png"] = .ok rW ∧
    "uploaded" ∈ (resultsDict rW).map Prod.fst ∧
    "uploaded" ∉ specReportFields :=
  ⟨rfl, by decide, by decide⟩

/-- C3 amended: the BatchReport returned by the batch entry point is a
structured record whose field set is exactly the spec's seven fields plus the
extra field `uploaded`, which is always 0 (the S3 upload being handled
elsewhere); no field is missing. -/
theorem report_fields_amended (fs : FileSystem) (hw dur : Nat)
    (image_paths : List String) (masks_array : NdArray) (output_paths : List String)
    (r : BatchReport)
    (hok : batch_create_rgba_optimized fs hw dur image_paths masks_array output_paths = .ok r) :
    (resultsDict r).map Prod.fst =
      ["processed", "errors", "output_files", "uploaded", "processing_time_ms",
       "avg_time_per_image_ms", "throughput_mpix_per_sec", "threads_used"] ∧
    r.uploaded = 0 := by
  obtain ⟨h1, h2, h3, h4, hp, he, hof, hu, hpt, havg, hthr, hth⟩ :=
    batch_ok_fields fs hw dur image_paths masks_array output_paths r hok
  exact ⟨rfl, hu⟩

/-- Witness: the amended field-set contract at the concrete one-image batch. -/
theorem report_fields_amended_witness :
    batch_create_rgba_optimized fsW 8 1000 ["img1.png"] masksW ["out1.png"] = .ok rW ∧
    ((resultsDict rW).map Prod.fst =
      ["processed", "errors", "output_files", "uploaded", "processing_time_ms",
       "avg_time_per_image_ms", "throughput_mpix_per_sec", "threads_used"] ∧
    rW.uploaded = 0) :=
  ⟨rfl, report_fields_amended fsW 8 1000 ["img1.png"] masksW ["out1.png"] rW rfl⟩

/-- C4: a batch call violating a pre-flight check - empty input list, unequal
path-list lengths, or a mask volume that is not 3-D with first dimension N -
throws before any task runs: no path is read, no path is written, and no
report (hence no counter update) is produced. -/
theorem preflight_aborts (fs : FileSystem) (hw dur : Nat)
    (image_paths : List String) (masks_array : NdArray) (output_paths : List String)
    (hbad : image_paths.length = 0 ∨ image_paths.length ≠ output_paths.length ∨
      masks_array.shape.length ≠ 3 ∨ masks_array.shape.getD 0 0 ≠ image_paths.length) :
    (∃ msg, batch_create_rgba_optimized fs hw dur image_paths masks_array output_paths =
      .error msg) ∧
    batch_reads image_paths masks_array output_paths = [] ∧
    batch_writes fs image_paths masks_array output_paths = [] := by
  have hpre : preflightOk image_paths masks_array output_paths = false := by
    unfold preflightOk
    rcases hbad with h | h | h | h
    · simp [h]
    · simp [h]
    · simp [h]
    · rw [List.getD_eq_getElem?_getD] at h
      simp [h]
  refine ⟨?_, ?_, ?_⟩
  · by_cases h1 : image_paths.length = 0
    · exact ⟨"No images provided", by simp [batch_create_rgba_optimized, h1]⟩
    · by_cases h2 : image_paths.length ≠ output_paths.length
      · exact ⟨"Number of image paths must match output paths", by
          simp [batch_create_rgba_optimized, h1, h2]⟩
      · have h3 : masks_array.shape.length ≠ 3 ∨
            masks_array.shape.getD 0 0 ≠ image_paths.length := by
          rcases hbad with h | h | h | h
          · exact absurd h h1
          · exact absurd h h2
          · exact Or.inl h
          · exact Or.inr h
        exact ⟨"Masks array must have shape (num_images, height, width)", by
          simp only [batch_create_rgba_optimized]
          rw [if_neg h1, if_neg h2, if_pos h3]⟩
  · unfold batch_reads
    rw [hpre]
    rfl
  · unfold batch_writes
    rw [hpre]
    rfl

/-- Witness: the empty input list aborts before any filesystem access. -/
theorem preflight_aborts_witness :
    (([] : List String).length = 0 ∨
      ([] : List String).length ≠ ([] : List String).length ∨
      masksW.shape.length ≠ 3 ∨ masksW.shape.getD 0 0 ≠ ([] : List String).length) ∧
    ((∃ msg, batch_create_rgba_optimized fsW 8 1000 [] masksW [] = .error msg) ∧
    batch_reads [] masksW [] = [] ∧
    batch_writes fsW [] masksW [] = []) :=
  ⟨Or.inl rfl, preflight_aborts fsW 8 1000 [] masksW [] (Or.inl rfl)⟩

/-- C5: per-task failures are isolated.  In every report-returning batch call,
the error counter is exactly the number of failing tasks (each failing task
adds exactly one), every failing task's result slot stays empty, the success
counter is exactly the number of succeeding tasks, and output_files lists the
succeeding tasks' output paths in slot order - a failing task never disturbs
the remaining tasks.  Instantiated by the witness at the claim's N = 3
scenario where only task 2's dimensions mismatch. -/
theorem per_task_error_isolation (fs : FileSystem) (hw dur : Nat)
    (image_paths : List String) (masks_array : NdArray) (output_paths : List String)
    (r : BatchReport) (hw0 : fs.imwriteOk "" = false)
    (hok : batch_create_rgba_optimized fs hw dur image_paths masks_array output_paths = .ok r) :
    r.errors = ((List.range image_paths.length).filter
      (fun i => !taskOK fs masks_array image_paths output_paths i)).length ∧
    (∀ i, i < image_paths.length →
      taskOK fs masks_array image_paths output_paths i = false →
      (outcomeSlots fs masks_array image_paths output_paths).getD i "" = "") ∧
    r.processed = ((List.range image_paths.length).filter
      (fun i => taskOK fs masks_array image_paths output_paths i)).length ∧
    r.output_files = ((List.range image_paths.length).filter
      (fun i => taskOK fs masks_array image_paths output_paths i)).map
      (fun i => output_paths.getD i "") := by
  obtain ⟨h1, h2, h3, h4, hp, he, hof, hu, hpt, havg, hthr, hth⟩ :=
    batch_ok_fields fs hw dur image_paths masks_array output_paths r hok
  refine ⟨he, ?_, hp, ?_⟩
  · intro i hi hfail
    unfold outcomeSlots
    rw [List.getD_eq_getElem _ ""
      (by rw [List.length_map, List.length_range]; exact hi)]
    rw [List.getElem_map]
    simp [List.getElem_range, hfail]
  · rw [hof, outcomeSlots_filter fs masks_array image_paths output_paths hw0]

/-- Witness: the three-task scenario in which only task 2's dimensions
mismatch gives processed = 2, errors = 1 and keeps tasks 1 and 3 intact. -/
theorem per_task_error_isolation_witness :
    fs5.imwriteOk "" = false ∧
    batch_create_rgba_optimized fs5 8 2000 ips5 masks5 ops5 = .ok r5 ∧
    r5.processed = 2 ∧ r5.errors = 1 ∧ r5.output_files = ["o1.png", "o3.png"] ∧
    taskOK fs5 masks5 ips5 ops5 1 = false ∧
    (r5.errors = ((List.range ips5.length).filter
      (fun i => !taskOK fs5 masks5 ips5 ops5 i)).length ∧
    (∀ i, i < ips5.length → taskOK fs5 masks5 ips5 ops5 i = false →
      (outcomeSlots fs5 masks5 ips5 ops5).getD i "" = "") ∧
    r5.processed = ((List.range ips5.length).filter
      (fun i => taskOK fs5 masks5 ips5 ops5 i)).length ∧
    r5.output_files = ((List.range ips5.length).filter
      (fun i => taskOK fs5 masks5 ips5 ops5 i)).map (fun i => ops5.getD i "")) :=
  ⟨by decide, rfl, by decide, by decide, by decide, by decide,
    per_task_error_isolation fs5 8 2000 ips5 masks5 ops5 r5 (by decide) rfl⟩

/-- C6: the returned output_files list is exactly the subsequence of the
caller's output paths at the successful slot indices, in ascending slot order
(original input order), contains only non-empty entries, and is independent of
completion order: executing the slot writes in any permutation of the task
indices and then compacting yields the same list. -/
theorem output_files_order_independent (fs : FileSystem) (hw dur : Nat)
    (image_paths : List String) (masks_array : NdArray) (output_paths : List String)
    (r : BatchReport) (order : List Nat) (hw0 : fs.imwriteOk "" = false)
    (hok : batch_create_rgba_optimized fs hw dur image_paths masks_array output_paths = .ok r)
    (hperm : order.Perm (List.range image_paths.length)) :
    r.output_files = ((List.range image_paths.length).filter
      (fun i => taskOK fs masks_array image_paths output_paths i)).map
      (fun i => output_paths.getD i "") ∧
    (∀ f ∈ r.output_files, f ≠ "") ∧
    (runSlotsInOrder (fun i => taskOK fs masks_array image_paths output_paths i)
      output_paths image_paths.length order).filter (fun f => f != "") =
      r.output_files := by
  obtain ⟨h1, h2, h3, h4, hp, he, hof, hu, hpt, havg, hthr, hth⟩ :=
    batch_ok_fields fs hw dur image_paths masks_array output_paths r hok
  have hmain : r.output_files = ((List.range image_paths.length).filter
      (fun i => taskOK fs masks_array image_paths output_paths i)).map
      (fun i => output_paths.getD i "") := by
    rw [hof, outcomeSlots_filter fs masks_array image_paths output_paths hw0]
  refine ⟨hmain, ?_, ?_⟩
  · intro f hf
    rw [hmain] at hf
    rcases List.mem_map.mp hf with ⟨i, hi, rfl⟩
    exact taskOK_path_ne fs masks_array image_paths output_paths i hw0
      (List.mem_filter.mp hi).2
  · rw [runSlotsInOrder_perm _ _ _ _ hperm]
    have hslots : (List.range image_paths.length).map
        (fun i => if taskOK fs masks_array image_paths output_paths i
          then output_paths.getD i "" else "") =
        outcomeSlots fs masks_array image_paths output_paths := rfl
    rw [hslots]
    exact hof.symm

/-- Witness: in the three-task scenario, completing the tasks in the skewed
order 3, 1, 2 yields the same compacted list as input order. -/
theorem output_files_order_independent_witness :
    fs5.imwriteOk "" = false ∧
    batch_create_rgba_optimized fs5 8 2000 ips5 masks5 ops5 = .ok r5 ∧
    ([2, 0, 1] : List Nat).Perm (List.range ips5.length) ∧
    (r5.output_files = ((List.range ips5.length).filter
      (fun i => taskOK fs5 masks5 ips5 ops5 i)).map (fun i => ops5.getD i "") ∧
    (∀ f ∈ r5.output_files, f ≠ "") ∧
    (runSlotsInOrder (fun i => taskOK fs5 masks5 ips5 ops5 i)
      ops5 ips5.length [2, 0, 1]).filter (fun f => f != "") = r5.output_files) :=
  ⟨by decide, rfl, by decide,
    output_files_order_independent fs5 8 2000 ips5 masks5 ops5 r5 [2, 0, 1]
      (by decide) rfl (by decide)⟩

/-- C7: on identical inputs - same loaded image, same 2-D mask bytes as the
batch call's plane `i`, same output path - the single-image entry point
computes byte-identical RGBA data to one iteration of the batch worker body,
and its boolean result is exactly the batch task's outcome: `false` on every
failure the batch path counts as an error (unloadable image, dimension
mismatch, write failure), `true` otherwise. -/
theorem single_matches_batch (fs : FileSystem) (masks_data : List Nat)
    (height width i : Nat) (mask : NdArray) (image_path output_path : String)
    (hshape : mask.shape = [height, width])
    (hcorr : ∀ p, p < height * width →
      masks_data.getD (i * height * width + p) 0 = mask.data.getD p 0) :
    create_rgba_single fs image_path mask output_path =
      taskSucceeds fs masks_data height width image_path output_path i ∧
    single_rgba_bytes fs image_path mask output_path =
      taskRGBA fs masks_data height width image_path i := by
  have hlen : ¬mask.shape.length ≠ 2 := by rw [hshape]; simp
  have hh : mask.shape.getD 0 0 = height := by rw [hshape]; rfl
  have hw' : mask.shape.getD 1 0 = width := by rw [hshape]; rfl
  rcases hread : fs.imread image_path with _ | image
  · have hrun : create_rgba_single_run fs image_path mask output_path = .failed := by
      unfold create_rgba_single_run
      rw [hread]
    have htask : taskRGBA fs masks_data height width image_path i = none := by
      unfold taskRGBA
      rw [hread]
    constructor
    · unfold create_rgba_single taskSucceeds
      rw [hrun, htask]
    · unfold single_rgba_bytes
      rw [hrun, htask]
  · by_cases hdim : image.rows = height ∧ image.cols = width
    · have hbuf : compositeRGBA (cvtColor_BGR2RGB image).data mask.data (height * width) =
          compositeRGBA (cvtColor_BGR2RGB image).data
            (masks_data.drop (i * height * width)) (height * width) := by
        apply compositeRGBA_mask_congr
        intro p hp
        rw [getD_drop, hcorr p hp]
      have hrun : create_rgba_single_run fs image_path mask output_path =
          .wrote (compositeRGBA (cvtColor_BGR2RGB image).data mask.data (height * width))
            (fs.imwriteOk output_path) := by
        unfold create_rgba_single_run
        simp only [hread]
        rw [if_neg hlen]
        simp only [hh, hw']
        rw [if_pos hdim]
      have htask : taskRGBA fs masks_data height width image_path i =
          some (compositeRGBA (cvtColor_BGR2RGB image).data
            (masks_data.drop (i * height * width)) (height * width)) := by
        unfold taskRGBA
        simp only [hread]
        rw [if_pos hdim]
      constructor
      · unfold create_rgba_single taskSucceeds
        rw [hrun, htask]
      · unfold single_rgba_bytes
        rw [hrun, htask, hbuf]
    · have hrun : create_rgba_single_run fs image_path mask output_path = .failed := by
        unfold create_rgba_single_run
        simp only [hread]
        rw [if_neg hlen]
        simp only [hh, hw']
        rw [if_neg hdim]
      have htask : taskRGBA fs masks_data height width image_path i = none := by
        unfold taskRGBA
        simp only [hread]
        rw [if_neg hdim]
      constructor
      · unfold create_rgba_single taskSucceeds
        rw [hrun, htask]
      · unfold single_rgba_bytes
        rw [hrun, htask]

/-- Witness: the single-image path and batch worker body agree on the
concrete one-pixel task. -/
theorem single_matches_batch_witness :
    mask7.shape = [1, 1] ∧
    (∀ p, p < 1 * 1 → ([7] : List Nat).getD (0 * 1 * 1 + p) 0 = mask7.data.getD p 0) ∧
    (create_rgba_single fsW "img1.png" mask7 "out1.png" =
      taskSucceeds fsW [7] 1 1 "img1.png" "out1.png" 0 ∧
    single_rgba_bytes fsW "img1.png" mask7 "out1.png" =
      taskRGBA fsW [7] 1 1 "img1.png" 0) :=
  ⟨rfl, by decide,
    single_matches_batch fsW [7] 1 1 0 mask7 "img1.png" "out1.png" rfl (by decide)⟩

/-- C8: in every report, throughput_mpix_per_sec is the successfully processed
pixels in megapixels divided by the elapsed wall-clock time in seconds, and is
zero when processed = 0 with positive elapsed time; avg_time_per_image_ms is
processing_time_ms divided by processed when processed > 0, else 0; and
processing_time_ms is the measured microsecond duration over 1000. -/
theorem report_statistics (fs : FileSystem) (hw dur : Nat)
    (image_paths : List String) (masks_array : NdArray) (output_paths : List String)
    (r : BatchReport)
    (hok : batch_create_rgba_optimized fs hw dur image_paths masks_array output_paths = .ok r) :
    r.processing_time_ms = (dur : ℚ) / 1000 ∧
    r.throughput_mpix_per_sec =
      (((r.processed * masks_array.shape.getD 1 0 * masks_array.shape.getD 2 0 : Nat) : ℚ)
        / 1000000) / ((dur : ℚ) / 1000000) ∧
    (r.processed = 0 → 0 < dur → r.throughput_mpix_per_sec = 0) ∧
    r.avg_time_per_image_ms =
      (if 0 < r.processed then r.processing_time_ms / (r.processed : ℚ) else 0) := by
  obtain ⟨h1, h2, h3, h4, hp, he, hof, hu, hpt, havg, hthr, hth⟩ :=
    batch_ok_fields fs hw dur image_paths masks_array output_paths r hok
  have hsec : ((dur : ℚ) / 1000) / 1000 = (dur : ℚ) / 1000000 := by
    rw [div_div]
    norm_num
  refine ⟨hpt, ?_, ?_, ?_⟩
  · rw [hthr, hsec]
  · intro hp0 _
    rw [hthr, hp0]
    simp
  · rw [havg, hpt]

/-- Witness: the statistics formulas at the concrete one-image batch. -/
theorem report_statistics_witness :
    batch_create_rgba_optimized fsW 8 1000 ["img1.png"] masksW ["out1.png"] = .ok rW ∧
    (rW.processing_time_ms = (1000 : ℚ) / 1000 ∧
    rW.throughput_mpix_per_sec =
      (((rW.processed * masksW.shape.getD 1 0 * masksW.shape.getD 2 0 : Nat) : ℚ)
        / 1000000) / ((1000 : ℚ) / 1000000) ∧
    (rW.processed = 0 → 0 < 1000 → rW.throughput_mpix_per_sec = 0) ∧
    rW.avg_time_per_image_ms =
      (if 0 < rW.processed then rW.processing_time_ms / (rW.processed : ℚ) else 0)) := by
  refine ⟨rfl, ?_⟩
  have h := report_statistics fsW 8 1000 ["img1.png"] masksW ["out1.png"] rW rfl
  exact_mod_cast h

/-- C9: the worker count is the configured cap of 4 capped by the available
hardware parallelism, and exactly this number is reported in threads_used. -/
theorem threads_used_eq (fs : FileSystem) (hw dur : Nat)
    (image_paths : List String) (masks_array : NdArray) (output_paths : List String)
    (r : BatchReport)
    (hok : batch_create_rgba_optimized fs hw dur image_paths masks_array output_paths = .ok r) :
    r.threads_used = min 4 hw := by
  obtain ⟨h1, h2, h3, h4, hp, he, hof, hu, hpt, havg, hthr, hth⟩ :=
    batch_ok_fields fs hw dur image_paths masks_array output_paths r hok
  exact hth

/-- Witness: with 8 hardware threads the report says 4 workers. -/
theorem threads_used_eq_witness :
    batch_create_rgba_optimized fsW 8 1000 ["img1.png"] masksW ["out1.png"] = .ok rW ∧
    rW.threads_used = min 4 8 :=
  ⟨rfl, threads_used_eq fsW 8 1000 ["img1.png"] masksW ["out1.png"] rW rfl⟩

/-- C10: handed a mask whose rank is not 2, the single-image entry point
returns false rather than letting any exception escape: whenever the image
loads, the internally thrown invalid-argument exception reaches the
function's own catch-all, so the caller observes only `false`. -/
theorem single_bad_rank_returns_false (fs : FileSystem) (image_path : String)
    (mask : NdArray) (output_path : String) (hrank : mask.shape.length ≠ 2) :
    create_rgba_single fs image_path mask output_path = false ∧
    (∀ image, fs.imread image_path = some image →
      create_rgba_single_run fs image_path mask output_path =
        .thrown "Mask must be 2D array") := by
  have hrun : ∀ image, fs.imread image_path = some image →
      create_rgba_single_run fs image_path mask output_path =
        .thrown "Mask must be 2D array" := by
    intro image hread
    unfold create_rgba_single_run
    simp only [hread]
    rw [if_pos hrank]
  refine ⟨?_, hrun⟩
  unfold create_rgba_single
  rcases hread : fs.imread image_path with _ | image
  · unfold create_rgba_single_run
    rw [hread]
  · rw [hrun image hread]

/-- Witness: a rank-3 mask makes the single-image path return false. -/
theorem single_bad_rank_returns_false_witness :
    masksW.shape.length ≠ 2 ∧
    (create_rgba_single fsW "img1.png" masksW "out1.png" = false ∧
    (∀ image, fsW.imread "img1.png" = some image →
      create_rgba_single_run fsW "img1.png" masksW "out1.png" =
        .thrown "Mask must be 2D array")) :=
  ⟨by decide, single_bad_rank_returns_false fsW "img1.png" masksW "out1.png" (by decide)⟩
